import Mathlib

/-!
Verification development for the gnome search client coordinator
(`src/gnomesearchclient/client.py` and `provider.py`).

The coordinator fans a query out to a set of search providers, streams
per-provider outcomes back in completion order under a round deadline, and a
stateful session wrapper records, between rounds, which providers produced
usable results and which never finished.

Modelling conventions:
* Python sets (`Client.providers`, `ClientStateful.unfinished_providers`) are
  modelled as duplicate-free lists; `set.update` / `set.discard` become
  `setUpdate` / `List.erase`.
* One scatter/gather round's interaction with the environment is abstracted
  into a `RoundRun`: the list of task completions that happened before the
  deadline, in completion order, plus whether the deadline expired while
  tasks were still pending.  The generator's yields and its state updates are
  pure functions of the dispatch list and the `RoundRun`.
* Exceptions raised by a provider call become `CallResult.err`; the
  `except Exception` arm in the gather loop turns them into a `Result` whose
  `error` field is set.
-/

/-- Identity triple of a search provider (`ProviderInfo` in `provider.py`).
`Provider.__eq__` and `Provider.__hash__` in the source delegate to this
triple, and a `Provider` holds no per-search mutable state, so a provider is
modelled by its identity triple alone. -/
structure Provider where
  desktop_id : String
  bus_name : String
  object_path : String
deriving DecidableEq

/-- Kinds of exception a provider call can raise: a bus-level failure or an
RPC-level error returned by the endpoint. -/
inductive ErrorKind
  | transport (msg : String)
  | application (msg : String)
deriving DecidableEq

/-- Embedding of the `Result` dataclass of `client.py`: provider, the query
terms, an optional id list and an optional captured exception. -/
structure Result where
  search_provider : Provider
  query : List String
  results : Option (List String) := none
  error : Option ErrorKind := none
deriving DecidableEq

/-- Embedding of the `Result.succeeded` property:
`self.error is None and self.results is not None`. -/
def Result.succeeded (r : Result) : Bool :=
  r.error.isNone && r.results.isSome

/-- The remote call dispatched to one provider in a round: a cold-start
`get_initial_result_set(terms)` or a refining
`get_subsearch_result_set(previous_ids, terms)`. -/
inductive Call
  | query (terms : List String)
  | refine (previous_ids : List String) (terms : List String)
deriving DecidableEq

/-- Python truthiness of `result.results` as used by the guard
`if result.results:` in `Client.get_subsearch_result_sets`: `None` and the
empty list are falsy, a non-empty list is truthy. -/
def truthyResults : Option (List String) → Bool
  | some (_ :: _) => true
  | _ => false

/-- Task-creation phase of the static `Client.get_subsearch_result_sets`
(lines 167-195 of `client.py`).  The source first walks
`previous_search_results`, creating a `get_subsearch_result_set` task for
every result with truthy `results` and collecting the rest into
`other_failed_providers`; it then creates a `get_initial_result_set` task for
every member of `additional_providers` (when given); finally it creates a
`get_initial_result_set` task for every collected failed provider.  The
returned list is the dispatched (provider, call) pairs in creation order. -/
def Client.subsearchDispatch (previous_search_results : List Result)
    (current_search_terms : List String)
    (additional_providers : Option (List Provider)) : List (Provider × Call) :=
  let refineTasks :=
    (previous_search_results.filter (fun r => truthyResults r.results)).map
      (fun r => (r.search_provider,
                 Call.refine (r.results.getD []) current_search_terms))
  let other_failed_providers :=
    (previous_search_results.filter (fun r => !truthyResults r.results)).map
      (fun r => r.search_provider)
  let additionalTasks :=
    (additional_providers.getD []).map
      (fun p => (p, Call.query current_search_terms))
  let otherTasks :=
    other_failed_providers.map (fun p => (p, Call.query current_search_terms))
  refineTasks ++ additionalTasks ++ otherTasks

/-- Task-creation phase of `Client._get_initial_result_sets`
(lines 109-118 of `client.py`): one cold-start task per provider. -/
def Client.initialDispatch (search_providers : List Provider)
    (search_terms : List String) : List (Provider × Call) :=
  search_providers.map (fun p => (p, Call.query search_terms))

/-- Outcome of one provider call: the id list it returned, or the exception
it raised. -/
inductive CallResult
  | ok (ids : List String)
  | err (e : ErrorKind)
deriving DecidableEq

/-- Environment behaviour of one scatter/gather round: the dispatched tasks
that completed before the round deadline, in completion order, and whether
the deadline expired while some task was still pending.  The deadline's
real-time effect is wholly captured by which completions made it into this
list. -/
structure RoundRun where
  completions : List (Provider × CallResult)
  timedOut : Bool
deriving DecidableEq

/-- A run is admissible for a dispatch list when each completion corresponds
to a distinct dispatched task (multiset inclusion of the providers), and
when the round did not time out every dispatched task completed. -/
def RoundRun.Admissible (run : RoundRun) (dispatch : List (Provider × Call)) : Prop :=
  List.Subperm (run.completions.map Prod.fst) (dispatch.map Prod.fst) ∧
  (run.timedOut = false → run.completions.length = dispatch.length)

/-- The `Result` yielded for one completed task by the gather loop of
`client.py`: `try: result = await coroutine; yield Result(sp, terms, result)
except Exception as ex: yield Result(sp, terms, error=ex)`. -/
def toResult (terms : List String) : Provider × CallResult → Result
  | (p, CallResult.ok ids) =>
      { search_provider := p, query := terms, results := some ids, error := none }
  | (p, CallResult.err e) =>
      { search_provider := p, query := terms, results := none, error := some e }

/-- The sequence of `Result`s the gather loop yields to the consumer during a
round: one per completion, in completion order.  Tasks that never complete
yield nothing (their entries are cancelled in the `finally` block without
ever reaching a `yield`). -/
def gatherOutput (terms : List String) (run : RoundRun) : List Result :=
  run.completions.map (toResult terms)

/-- How a round's generator hands control back to the consumer. -/
inductive RoundExit
  | completed
  | raisedTimeout
deriving DecidableEq

/-- Terminal behaviour of the gather generator.  The `async for ... in
asyncio.as_completed(...)` loop is wrapped in `async with
asyncio.timeout(timeout)` and a `try`/`finally` with no `except` clause: when
the deadline expires, `asyncio.timeout.__aexit__` raises `TimeoutError`,
which (after the `finally` block cancels the stragglers) propagates out of
the generator into the consumer's iteration.  Only when every task completes
first does the generator finish normally. -/
def roundExit (run : RoundRun) : RoundExit :=
  if run.timedOut then RoundExit.raisedTimeout else RoundExit.completed

/-- State held by `ClientStateful` between rounds: the recorded outcomes of
the most recent round and the providers that round never heard back from. -/
structure ClientStatefulState where
  previous_results : List Result
  unfinished_providers : List Provider
deriving DecidableEq

/-- Python `set.update` on a duplicate-free list carrier: insert every
element of `t` that is not already present. -/
def setUpdate (s : List Provider) (t : List Provider) : List Provider :=
  t.foldl (fun acc p => acc.insert p) s

/-- The per-result bookkeeping of both stateful round loops:
`self.previous_results.append(result)`;
`self.unfinished_providers.discard(result.search_provider)`. -/
def recordResult (st : ClientStatefulState) (r : Result) : ClientStatefulState :=
  { previous_results := st.previous_results ++ [r],
    unfinished_providers := st.unfinished_providers.erase r.search_provider }

/-- Session state at the start of `ClientStateful.get_initial_result_sets`
(lines 249-250 of `client.py`), before any outcome of the new round is
recorded: `self.previous_results.clear()`;
`self.unfinished_providers.update(self.client.providers)`.  Note the update
is not preceded by a clear of `unfinished_providers`. -/
def ClientStateful.initialRoundStart (providers : List Provider)
    (st : ClientStatefulState) : ClientStatefulState :=
  { previous_results := [],
    unfinished_providers := setUpdate st.unfinished_providers providers }

/-- One full round of `ClientStateful.get_initial_result_sets` with current
provider population `providers`: reset the tracking state, run the scatter
round (dispatch is `Client.initialDispatch providers terms`, read from
`self.client.providers`, untouched by the reset), and record each yielded
result.  Returns the yielded sequence and the final session state. -/
def ClientStateful.get_initial_result_sets (providers : List Provider)
    (st : ClientStatefulState) (search_terms : List String) (run : RoundRun) :
    List Result × ClientStatefulState :=
  let st1 := ClientStateful.initialRoundStart providers st
  let out := gatherOutput search_terms run
  (out, out.foldl recordResult st1)

/-- Session state after the reset in `ClientStateful.get_subsearch_result_sets`
(lines 271-273 of `client.py`): `self.unfinished_providers.clear()`;
`self.unfinished_providers.update(self.client.providers)`;
`self.previous_results.clear()`. -/
def ClientStateful.refineRoundStart (providers : List Provider) : ClientStatefulState :=
  { previous_results := [],
    unfinished_providers := setUpdate [] providers }

/-- Dispatch of a stateful refine round.  In the source, line 269 builds
`gen = self.client.get_subsearch_result_sets(self.previous_results, terms,
self.unfinished_providers, ...)`.  `Client.get_subsearch_result_sets` is an
async generator function, so this call creates the generator without running
any of its body; the body's task-creation loops first run at the first
`__anext__` of the `async for` on line 274.  Its two iterable arguments are
references to the very list and set that lines 271-273 clear and repopulate
in the meantime.  Consequently, by the time the generator body reads them,
`previous_search_results` is empty and `additional_providers` is the full
current population: the round dispatches from the reset state, not from the
state the method was called in. -/
def ClientStateful.refineDispatch (providers : List Provider)
    (st : ClientStatefulState) (current_search_terms : List String) :
    List (Provider × Call) :=
  let st1 := ClientStateful.refineRoundStart providers
  Client.subsearchDispatch st1.previous_results current_search_terms
    (some st1.unfinished_providers)

/-- One full round of `ClientStateful.get_subsearch_result_sets` with current
provider population `providers`: create the (lazy) client generator, reset
the tracking state, then drain the generator recording each yielded result.
Returns the yielded sequence and the final session state. -/
def ClientStateful.get_subsearch_result_sets (providers : List Provider)
    (st : ClientStatefulState) (current_search_terms : List String)
    (run : RoundRun) : List Result × ClientStatefulState :=
  let st1 := ClientStateful.refineRoundStart providers
  let out := gatherOutput current_search_terms run
  (out, out.foldl recordResult st1)

/-- Embedding of `ClientStateful.clear_previous_results`:
`self.previous_results.clear()`. -/
def ClientStateful.clear_previous_results (st : ClientStatefulState) :
    ClientStatefulState :=
  { st with previous_results := [] }

/-- Embedding of `ClientStateful.get_search_result_sets` (lines 282-295):
`return self.get_subsearch_result_sets(search_terms, timeout)`. -/
def ClientStateful.get_search_result_sets (providers : List Provider)
    (st : ClientStatefulState) (search_terms : List String)
    (run : RoundRun) : List Result × ClientStatefulState :=
  ClientStateful.get_subsearch_result_sets providers st search_terms run

/-- Whether the session state has a recorded outcome for provider `p`. -/
def hasOutcome (st : ClientStatefulState) (p : Provider) : Bool :=
  st.previous_results.any (fun r => r.search_provider = p)

/-- Concrete providers used by witnesses and counterexamples. -/
def provA : Provider := { desktop_id := "a.desktop", bus_name := "org.a", object_path := "/a" }

/-- Second concrete provider used by witnesses and counterexamples. -/
def provB : Provider := { desktop_id := "b.desktop", bus_name := "org.b", object_path := "/b" }

/-- Third concrete provider used by witnesses and counterexamples. -/
def provC : Provider := { desktop_id := "c.desktop", bus_name := "org.c", object_path := "/c" }

/-- Fourth concrete provider used by witnesses and counterexamples. -/
def provD : Provider := { desktop_id := "d.desktop", bus_name := "org.d", object_path := "/d" }

/-- Claim C9: `Result.succeeded` is true exactly when `error` is `None` and
`results` is not `None`; a `Result` with an empty id list and no error is
succeeded, and a `Result` with both fields `None` is not. -/
theorem C9_result_succeeded :
    (∀ r : Result, r.succeeded = true ↔ (r.error = none ∧ r.results ≠ none)) ∧
    (∀ (p : Provider) (terms : List String),
       (Result.mk p terms (some []) none).succeeded = true) ∧
    (∀ (p : Provider) (terms : List String),
       (Result.mk p terms none none).succeeded = false) := by
  refine ⟨fun r => ?_, fun p terms => rfl, fun p terms => rfl⟩
  cases h : r.error <;> cases h2 : r.results <;>
    simp [Result.succeeded, h, h2]

/-- Claim C10: the session's `get_search_result_sets` is definitionally the
same operation as its `get_subsearch_result_sets`: same yielded sequence,
same state update, for every population, state, terms and round behaviour. -/
theorem C10_search_alias (providers : List Provider) (st : ClientStatefulState)
    (search_terms : List String) (run : RoundRun) :
    ClientStateful.get_search_result_sets providers st search_terms run
      = ClientStateful.get_subsearch_result_sets providers st search_terms run := rfl

/-! ### Helper lemmas on the set-as-list operations -/

theorem mem_setUpdate_iff (t s : List Provider) (p : Provider) :
    p ∈ setUpdate s t ↔ p ∈ s ∨ p ∈ t := by
  induction t generalizing s with
  | nil => simp [setUpdate]
  | cons a t ih =>
      show p ∈ setUpdate (s.insert a) t ↔ _
      rw [ih]
      simp only [List.mem_insert_iff, List.mem_cons]
      tauto

theorem nodup_setUpdate (t s : List Provider) (hs : s.Nodup) :
    (setUpdate s t).Nodup := by
  induction t generalizing s with
  | nil => exact hs
  | cons a t ih => exact ih _ hs.insert

theorem mem_foldl_erase_iff (l u : List Provider) (hu : u.Nodup) (p : Provider) :
    p ∈ l.foldl List.erase u ↔ p ∈ u ∧ p ∉ l := by
  induction l generalizing u with
  | nil => simp
  | cons a l ih =>
      show p ∈ l.foldl List.erase (u.erase a) ↔ _
      rw [ih _ (hu.erase a), List.Nodup.mem_erase_iff hu, List.mem_cons]
      tauto

theorem foldl_recordResult_spec (out : List Result) (st1 : ClientStatefulState) :
    (out.foldl recordResult st1).previous_results = st1.previous_results ++ out ∧
    (out.foldl recordResult st1).unfinished_providers
      = (out.map Result.search_provider).foldl List.erase st1.unfinished_providers := by
  induction out generalizing st1 with
  | nil => simp
  | cons r out ih =>
      obtain ⟨h1, h2⟩ := ih (recordResult st1 r)
      refine ⟨?_, ?_⟩
      · rw [List.foldl_cons, h1]
        simp [recordResult]
      · rw [List.foldl_cons, h2]
        rfl

theorem toResult_search_provider (terms : List String) (c : Provider × CallResult) :
    (toResult terms c).search_provider = c.1 := by
  rcases c with ⟨p, ids | e⟩ <;> rfl

theorem gatherOutput_providers (terms : List String) (run : RoundRun) :
    (gatherOutput terms run).map Result.search_provider = run.completions.map Prod.fst := by
  unfold gatherOutput
  rw [List.map_map]
  exact List.map_congr_left fun c _ => toResult_search_provider terms c

/-! ### Routing of the stateless refine coordinator -/

/-- Claim C5: for inputs given directly to the static
`Client.get_subsearch_result_sets`, every prior result that is a `Success`
with a non-empty id list gets a refine call with those ids; every prior
result with no ids (`None`) or an empty id list gets a cold-start query; and
every provider in the forced cold-start collection gets a cold-start query.
(A provider with no prior entry is dispatched at all only through the forced
cold-start collection, where the third part applies.) -/
theorem C5_stateless_refine_routing (previous_search_results : List Result)
    (additional_providers : List Provider) (terms : List String) :
    (∀ r ∈ previous_search_results, ∀ ids : List String,
        r.error = none → r.results = some ids → ids ≠ [] →
        (r.search_provider, Call.refine ids terms)
          ∈ Client.subsearchDispatch previous_search_results terms (some additional_providers)) ∧
    (∀ r ∈ previous_search_results, (r.results = none ∨ r.results = some []) →
        (r.search_provider, Call.query terms)
          ∈ Client.subsearchDispatch previous_search_results terms (some additional_providers)) ∧
    (∀ p ∈ additional_providers,
        (p, Call.query terms)
          ∈ Client.subsearchDispatch previous_search_results terms (some additional_providers)) := by
  refine ⟨?_, ?_, ?_⟩
  · intro r hr ids _ hres hne
    apply List.mem_append.mpr; left
    apply List.mem_append.mpr; left
    apply List.mem_map.mpr
    refine ⟨r, List.mem_filter.mpr ⟨hr, ?_⟩, ?_⟩
    · rw [hres]
      cases ids with
      | nil => exact absurd rfl hne
      | cons a l => rfl
    · rw [hres]
      rfl
  · intro r hr hres
    apply List.mem_append.mpr; right
    apply List.mem_map.mpr
    refine ⟨r.search_provider, ?_, rfl⟩
    apply List.mem_map.mpr
    refine ⟨r, List.mem_filter.mpr ⟨hr, ?_⟩, rfl⟩
    rcases hres with h | h <;> rw [h] <;> rfl
  · intro p hp
    apply List.mem_append.mpr; left
    apply List.mem_append.mpr; right
    exact List.mem_map.mpr ⟨p, hp, rfl⟩

/-- A concrete prior round used by witnesses: provA succeeded with a
non-empty id list, provB succeeded with an empty id list, provC failed. -/
def examplePrev : List Result :=
  [{ search_provider := provA, query := ["t"], results := some ["x"], error := none },
   { search_provider := provB, query := ["t"], results := some [], error := none },
   { search_provider := provC, query := ["t"], results := none,
     error := some (ErrorKind.transport "gone") }]

/-- Witness for C5 at a concrete prior round (provA non-empty success, provB
empty success, provC failure, provD forced cold-start). -/
theorem C5_stateless_refine_routing_witness :
    (provA, Call.refine ["x"] ["u"]) ∈ Client.subsearchDispatch examplePrev ["u"] (some [provD]) ∧
    (provB, Call.query ["u"]) ∈ Client.subsearchDispatch examplePrev ["u"] (some [provD]) ∧
    (provC, Call.query ["u"]) ∈ Client.subsearchDispatch examplePrev ["u"] (some [provD]) ∧
    (provD, Call.query ["u"]) ∈ Client.subsearchDispatch examplePrev ["u"] (some [provD]) :=
  ⟨(C5_stateless_refine_routing examplePrev [provD] ["u"]).1
      { search_provider := provA, query := ["t"], results := some ["x"], error := none }
      (by decide) ["x"] rfl rfl (by decide),
   (C5_stateless_refine_routing examplePrev [provD] ["u"]).2.1
      { search_provider := provB, query := ["t"], results := some [], error := none }
      (by decide) (Or.inr rfl),
   (C5_stateless_refine_routing examplePrev [provD] ["u"]).2.1
      { search_provider := provC, query := ["t"], results := none,
        error := some (ErrorKind.transport "gone") }
      (by decide) (Or.inl rfl),
   (C5_stateless_refine_routing examplePrev [provD] ["u"]).2.2 provD (by decide)⟩

/-- A prior-round result for provA with a non-empty id list, used by the C4
counterexample. -/
def prevSuccessA : Result :=
  { search_provider := provA, query := ["t"], results := some ["x"], error := none }

/-- Claim C4 counterexample: with provA both in the forced cold-start
collection and holding a non-empty prior success, the dispatch contains TWO
tasks for provA — a refine and a cold-start query — not a single cold-start
query, and a run in which both tasks complete yields two outcomes for provA
in one round. -/
theorem C4_counterexample :
    Client.subsearchDispatch [prevSuccessA] ["u"] (some [provA])
      = [(provA, Call.refine ["x"] ["u"]), (provA, Call.query ["u"])] ∧
    (provA, Call.refine ["x"] ["u"])
      ∈ Client.subsearchDispatch [prevSuccessA] ["u"] (some [provA]) ∧
    (gatherOutput ["u"]
        ⟨[(provA, CallResult.ok ["y"]), (provA, CallResult.ok ["z"])], false⟩).countP
      (fun r => decide (r.search_provider = provA)) = 2 ∧
    RoundRun.Admissible ⟨[(provA, CallResult.ok ["y"]), (provA, CallResult.ok ["z"])], false⟩
      (Client.subsearchDispatch [prevSuccessA] ["u"] (some [provA])) := by
  refine ⟨by decide, by decide, by decide, ?_, ?_⟩
  · exact List.Subperm.refl _
  · intro _
    decide

/-- Claim C4 amended: an Endpoint that is both in the forced cold-start
collection and present in the prior outcomes with a non-empty id list is
dispatched both a refine call with those ids and a cold-start query call
(the forced cold-start branch does not take precedence and does not dedupe),
so the round can yield two outcomes for that Endpoint. -/
theorem C4_both_calls_dispatched (previous_search_results : List Result)
    (additional_providers : List Provider) (terms : List String) (r : Result)
    (hr : r ∈ previous_search_results) (ids : List String)
    (herr : r.error = none) (hres : r.results = some ids) (hne : ids ≠ [])
    (ha : r.search_provider ∈ additional_providers) :
    (r.search_provider, Call.refine ids terms)
      ∈ Client.subsearchDispatch previous_search_results terms (some additional_providers) ∧
    (r.search_provider, Call.query terms)
      ∈ Client.subsearchDispatch previous_search_results terms (some additional_providers) := by
  refine ⟨?_, ?_⟩
  · apply List.mem_append.mpr; left
    apply List.mem_append.mpr; left
    apply List.mem_map.mpr
    refine ⟨r, List.mem_filter.mpr ⟨hr, ?_⟩, ?_⟩
    · rw [hres]
      cases ids with
      | nil => exact absurd rfl hne
      | cons a l => rfl
    · rw [hres]
      rfl
  · apply List.mem_append.mpr; left
    apply List.mem_append.mpr; right
    exact List.mem_map.mpr ⟨r.search_provider, ha, rfl⟩

/-- Witness for the amended C4 at the concrete overlapping input. -/
theorem C4_both_calls_dispatched_witness :
    (provA, Call.refine ["x"] ["u"])
      ∈ Client.subsearchDispatch [prevSuccessA] ["u"] (some [provA]) ∧
    (provA, Call.query ["u"])
      ∈ Client.subsearchDispatch [prevSuccessA] ["u"] (some [provA]) :=
  C4_both_calls_dispatched [prevSuccessA] [provA] ["u"] prevSuccessA
    (by decide) ["x"] rfl rfl (by decide) (by decide)

/-- Claim C1 (evidence of the code bug): with a session state recording a
non-empty prior Success for provA and an empty unfinished set, the next
stateful refine round dispatches a single cold-start query to provA and no
refine call at all.  `Client.get_subsearch_result_sets` is a lazy async
generator whose arguments alias `self.previous_results` and
`self.unfinished_providers`; `ClientStateful.get_subsearch_result_sets`
resets both before first iterating the generator, so the dispatch loops read
the reset state instead of the captured prior round. -/
theorem C1_refine_round_ignores_prior_state :
    ClientStateful.refineDispatch [provA]
      { previous_results := [prevSuccessA], unfinished_providers := [] } ["u"]
      = [(provA, Call.query ["u"])] := by decide

/-- Claim C2 counterexample: run an initial round over population
[provA, provB] in which only provA completes (so provB stays unfinished),
then shrink the population to [provA] and start a new initial round.  At the
start of that round — before any new outcome is recorded — the stale provB
is still a member of the unfinished set, which therefore does not equal the
full current Endpoint population. -/
theorem C2_counterexample :
    provB ∈ (ClientStateful.initialRoundStart [provA]
        (ClientStateful.get_initial_result_sets [provA, provB] ⟨[], []⟩ ["t"]
          ⟨[(provA, CallResult.ok ["x"])], true⟩).2).unfinished_providers ∧
    provB ∉ [provA] := by decide

/-- Claim C2 amended: at the start of an initial round the recorded outcomes
are empty and every current Endpoint is in the unfinished set; however the
reset is an update without a clear, so entries from earlier rounds are
retained — the unfinished set equals exactly the current population only
when the pre-call unfinished set is contained in the current population
(in particular whenever the population has not shrunk). -/
theorem C2_initial_round_start (providers : List Provider) (st : ClientStatefulState) :
    (ClientStateful.initialRoundStart providers st).previous_results = [] ∧
    (∀ p ∈ providers,
        p ∈ (ClientStateful.initialRoundStart providers st).unfinished_providers) ∧
    (∀ p ∈ (ClientStateful.initialRoundStart providers st).unfinished_providers,
        p ∈ st.unfinished_providers ∨ p ∈ providers) ∧
    (st.unfinished_providers ⊆ providers →
      ∀ p, p ∈ (ClientStateful.initialRoundStart providers st).unfinished_providers
        ↔ p ∈ providers) := by
  refine ⟨rfl, ?_, ?_, ?_⟩
  · intro p hp
    exact (mem_setUpdate_iff providers st.unfinished_providers p).mpr (Or.inr hp)
  · intro p hp
    exact (mem_setUpdate_iff providers st.unfinished_providers p).mp hp
  · intro hsub p
    rw [show (ClientStateful.initialRoundStart providers st).unfinished_providers
          = setUpdate st.unfinished_providers providers from rfl,
        mem_setUpdate_iff]
    exact ⟨fun h => h.elim (fun h' => hsub h') id, Or.inr⟩

/-- Witness for the amended C2 at a concrete state whose unfinished set is
contained in the current population. -/
theorem C2_initial_round_start_witness :
    (ClientStateful.initialRoundStart [provA] ⟨[], [provA]⟩).previous_results = [] ∧
    provA ∈ (ClientStateful.initialRoundStart [provA] ⟨[], [provA]⟩).unfinished_providers ∧
    (provA ∈ (ClientStateful.initialRoundStart [provA] ⟨[], [provA]⟩).unfinished_providers
      ↔ provA ∈ [provA]) :=
  ⟨(C2_initial_round_start [provA] ⟨[], [provA]⟩).1,
   (C2_initial_round_start [provA] ⟨[], [provA]⟩).2.1 provA (by decide),
   (C2_initial_round_start [provA] ⟨[], [provA]⟩).2.2.2 (List.Subset.refl _) provA⟩

/-- Claim C3 counterexample: a round over [provA, provB] in which only provA
completes before the deadline is an admissible run, and its generator exits
by raising the timeout to the consumer rather than completing normally (the
`async with asyncio.timeout` block has no `except` handler around it). -/
theorem C3_counterexample :
    RoundRun.Admissible ⟨[(provA, CallResult.ok ["x"])], true⟩
      (Client.initialDispatch [provA, provB] ["t"]) ∧
    roundExit ⟨[(provA, CallResult.ok ["x"])], true⟩ = RoundExit.raisedTimeout ∧
    RoundExit.raisedTimeout ≠ RoundExit.completed := by
  refine ⟨⟨?_, ?_⟩, rfl, by decide⟩
  · exact ((List.nil_sublist [provB]).cons₂ provA).subperm
  · intro h
    cases h

/-- Claim C3 amended: an Endpoint whose call does not complete before the
deadline is simply absent from the yielded sequence — no `Failure` outcome
is fabricated for it — but the round ends normally from the consumer's
perspective only when every task completed: on deadline expiry the
`TimeoutError` raised by the deadline guard propagates out of the generator
to the consumer. -/
theorem C3_deadline_behavior (terms : List String) (run : RoundRun) (p : Provider)
    (habs : p ∉ run.completions.map Prod.fst) :
    (∀ r ∈ gatherOutput terms run, r.search_provider ≠ p) ∧
    (roundExit run = RoundExit.completed ↔ run.timedOut = false) := by
  refine ⟨?_, ?_⟩
  · intro r hr he
    obtain ⟨c, hc, hrc⟩ := List.mem_map.mp hr
    apply habs
    apply List.mem_map.mpr
    refine ⟨c, hc, ?_⟩
    rw [← toResult_search_provider terms c, hrc, he]
  · unfold roundExit
    cases h : run.timedOut <;> simp [h]

/-- Witness for the amended C3: in the one-completion timed-out run, provB
appears in no yielded outcome and the round does not end normally. -/
theorem C3_deadline_behavior_witness :
    (∀ r ∈ gatherOutput ["t"] ⟨[(provA, CallResult.ok ["x"])], true⟩,
        r.search_provider ≠ provB) ∧
    (roundExit ⟨[(provA, CallResult.ok ["x"])], true⟩ = RoundExit.completed
      ↔ (⟨[(provA, CallResult.ok ["x"])], true⟩ : RoundRun).timedOut = false) :=
  C3_deadline_behavior ["t"] ⟨[(provA, CallResult.ok ["x"])], true⟩ provB (by decide)

/-! ### Round-end partition invariant -/

/-- The partition property over a round-start population at round end: every
population member either has a recorded outcome or sits in the unfinished
set — never both, never neither — and the two counts over the population sum
to the population size; moreover the number of recorded outcomes itself plus
the unfinished count over the population is the population size. -/
def PartitionAtEnd (providers : List Provider) (stF : ClientStatefulState) : Prop :=
  (∀ p ∈ providers,
      (hasOutcome stF p = true ↔ p ∉ stF.unfinished_providers)) ∧
  providers.countP (fun p => hasOutcome stF p)
    + providers.countP (fun p => decide (p ∈ stF.unfinished_providers))
    = providers.length ∧
  stF.previous_results.length
    + providers.countP (fun p => decide (p ∈ stF.unfinished_providers))
    = providers.length

/-- Core partition lemma for the shared round-recording loop: starting from
cleared outcomes and an unfinished set `u0` covering the population, folding
the recording step over a round's yielded results produces a state
satisfying `PartitionAtEnd`. -/
theorem partition_core (providers u0 : List Provider) (terms : List String)
    (run : RoundRun) (hu0 : u0.Nodup) (hpop : ∀ p ∈ providers, p ∈ u0)
    (hnd : providers.Nodup) (hnr : (run.completions.map Prod.fst).Nodup)
    (hsub : ∀ q ∈ run.completions.map Prod.fst, q ∈ providers) :
    PartitionAtEnd providers
      ((gatherOutput terms run).foldl recordResult ⟨[], u0⟩) := by
  set out := gatherOutput terms run with hout_def
  set comps := run.completions.map Prod.fst with hcomps
  obtain ⟨hprev0, hunf0⟩ := foldl_recordResult_spec out ⟨[], u0⟩
  have houtmap : out.map Result.search_provider = comps := gatherOutput_providers terms run
  set stF := out.foldl recordResult ⟨[], u0⟩ with hstF
  have hprev : stF.previous_results = out := by rw [hprev0]; rfl
  have hunf : stF.unfinished_providers = comps.foldl List.erase u0 := by
    rw [hunf0, houtmap]
  have hmem_unf : ∀ p, p ∈ stF.unfinished_providers ↔ p ∈ u0 ∧ p ∉ comps := by
    intro p
    rw [hunf]
    exact mem_foldl_erase_iff comps u0 hu0 p
  have hout : ∀ p, hasOutcome stF p = true ↔ p ∈ comps := by
    intro p
    rw [← houtmap]
    simp only [hasOutcome, hprev, List.any_eq_true, decide_eq_true_eq, List.mem_map]
  have hiff : ∀ p ∈ providers, (hasOutcome stF p = true ↔ p ∉ stF.unfinished_providers) := by
    intro p hp
    rw [hout, hmem_unf]
    have hp0 : p ∈ u0 := hpop p hp
    constructor
    · intro hc hcontra
      exact hcontra.2 hc
    · intro hcontra
      by_contra hc
      exact hcontra ⟨hp0, hc⟩
  have hcount : providers.countP (fun p => hasOutcome stF p)
      + providers.countP (fun p => decide (p ∈ stF.unfinished_providers))
      = providers.length := by
    rw [List.length_eq_countP_add_countP (fun p => hasOutcome stF p) providers]
    congr 1
    apply List.countP_congr
    intro p hp
    simp only [decide_eq_true_eq]
    rw [hiff p hp]
    tauto
  have hlen : stF.previous_results.length
      = providers.countP (fun p => hasOutcome stF p) := by
    have h1 : providers.countP (fun p => hasOutcome stF p)
        = providers.countP (fun p => decide (p ∈ comps)) := by
      apply List.countP_congr
      intro p _
      simp only [decide_eq_true_eq]
      rw [hout p]
    have hperm : List.Perm (providers.filter (fun p => decide (p ∈ comps)))
        (comps.filter (fun q => decide (q ∈ providers))) := by
      apply List.perm_of_nodup_nodup_toFinset_eq (hnd.filter _) (hnr.filter _)
      ext a
      simp only [List.mem_toFinset, List.mem_filter, decide_eq_true_eq]
      tauto
    have h2 : comps.filter (fun q => decide (q ∈ providers)) = comps :=
      List.filter_eq_self.mpr fun a ha => by simpa using hsub a ha
    have h3 : out.length = comps.length := by
      rw [← houtmap, List.length_map]
    rw [hprev, h3, h1, List.countP_eq_length_filter, hperm.length_eq, h2]
  exact ⟨hiff, hcount, by rw [hlen]; exact hcount⟩

/-- Claim C6: for any round of either stateful operation that terminates (any
admissible completion list, with or without deadline expiry), every Endpoint
of the round-start population ends the round with exactly one of a recorded
outcome or unfinished membership, and the counts over the population sum to
the population size. -/
theorem C6_round_partition (providers : List Provider) (st : ClientStatefulState)
    (terms : List String) (run : RoundRun)
    (hnd : providers.Nodup) (hunf : st.unfinished_providers.Nodup)
    (hnr : (run.completions.map Prod.fst).Nodup)
    (hsub : ∀ q ∈ run.completions.map Prod.fst, q ∈ providers) :
    PartitionAtEnd providers
      (ClientStateful.get_initial_result_sets providers st terms run).2 ∧
    PartitionAtEnd providers
      (ClientStateful.get_subsearch_result_sets providers st terms run).2 := by
  constructor
  · exact partition_core providers (setUpdate st.unfinished_providers providers) terms run
      (nodup_setUpdate providers st.unfinished_providers hunf)
      (fun p hp => (mem_setUpdate_iff providers st.unfinished_providers p).mpr (Or.inr hp))
      hnd hnr hsub
  · exact partition_core providers (setUpdate [] providers) terms run
      (nodup_setUpdate providers [] List.nodup_nil)
      (fun p hp => (mem_setUpdate_iff providers [] p).mpr (Or.inr hp))
      hnd hnr hsub

/-- Witness for C6: population [provA, provB] with a stale unfinished provC,
round in which only provA completes before the deadline. -/
theorem C6_round_partition_witness :
    PartitionAtEnd [provA, provB]
      (ClientStateful.get_initial_result_sets [provA, provB] ⟨[], [provC]⟩ ["t"]
        ⟨[(provA, CallResult.ok ["x"])], true⟩).2 ∧
    PartitionAtEnd [provA, provB]
      (ClientStateful.get_subsearch_result_sets [provA, provB] ⟨[], [provC]⟩ ["t"]
        ⟨[(provA, CallResult.ok ["x"])], true⟩).2 :=
  C6_round_partition [provA, provB] ⟨[], [provC]⟩ ["t"]
    ⟨[(provA, CallResult.ok ["x"])], true⟩
    (by decide) (by decide) (by decide) (by decide)

/-- Claim C7: a provider call that raises before the deadline is surfaced as
a `Failure` outcome yielded inline in completion order; the failure never
escapes the gather loop as an exception, never shortens the stream (every
completion still yields its own outcome), and never forces a timeout exit:
a fully-completed round still ends normally. -/
theorem C7_failures_inline (terms : List String) (run : RoundRun) (p : Provider)
    (e : ErrorKind) (hmem : (p, CallResult.err e) ∈ run.completions) :
    ({ search_provider := p, query := terms, results := none,
       error := some e } : Result) ∈ gatherOutput terms run ∧
    (gatherOutput terms run).length = run.completions.length ∧
    (∀ c ∈ run.completions, toResult terms c ∈ gatherOutput terms run) ∧
    (run.timedOut = false → roundExit run = RoundExit.completed) := by
  refine ⟨?_, ?_, ?_, ?_⟩
  · exact List.mem_map.mpr ⟨(p, CallResult.err e), hmem, rfl⟩
  · simp [gatherOutput]
  · intro c hc
    exact List.mem_map.mpr ⟨c, hc, rfl⟩
  · intro h
    simp [roundExit, h]

/-- Witness for C7: a round where provA succeeds and provB raises a
transport error; provB's failure appears inline and the round exits
normally. -/
theorem C7_failures_inline_witness :
    ({ search_provider := provB, query := ["t"], results := none,
       error := some (ErrorKind.transport "gone") } : Result)
      ∈ gatherOutput ["t"]
          ⟨[(provA, CallResult.ok ["x"]),
            (provB, CallResult.err (ErrorKind.transport "gone"))], false⟩ ∧
    (gatherOutput ["t"]
        ⟨[(provA, CallResult.ok ["x"]),
          (provB, CallResult.err (ErrorKind.transport "gone"))], false⟩).length
      = ([(provA, CallResult.ok ["x"]),
          (provB, CallResult.err (ErrorKind.transport "gone"))] :
            List (Provider × CallResult)).length ∧
    (∀ c ∈ ([(provA, CallResult.ok ["x"]),
             (provB, CallResult.err (ErrorKind.transport "gone"))] :
               List (Provider × CallResult)),
        toResult ["t"] c ∈ gatherOutput ["t"]
          ⟨[(provA, CallResult.ok ["x"]),
            (provB, CallResult.err (ErrorKind.transport "gone"))], false⟩) ∧
    ((⟨[(provA, CallResult.ok ["x"]),
        (provB, CallResult.err (ErrorKind.transport "gone"))], false⟩ :
          RoundRun).timedOut = false →
      roundExit ⟨[(provA, CallResult.ok ["x"]),
                  (provB, CallResult.err (ErrorKind.transport "gone"))], false⟩
        = RoundExit.completed) :=
  C7_failures_inline ["t"]
    ⟨[(provA, CallResult.ok ["x"]),
      (provB, CallResult.err (ErrorKind.transport "gone"))], false⟩
    provB (ErrorKind.transport "gone") (by decide)
